import Mathlib

set_option maxHeartbeats 1000000

namespace LightApi

/-- Scalar values stored in entity columns and JSON bodies.  SQLite columns are
dynamically typed, so a column (including the primary key) can hold a string,
an integer, a boolean or NULL. -/
inductive Value
  | vstr (s : String)
  | vint (n : Int)
  | vbool (b : Bool)
  | vnull
deriving DecidableEq

/-- A mapping from column or field names to values: a decoded JSON object body,
or the non-key columns of a database row. -/
abbrev Row := List (String × Value)

/-- Python exceptions that the embedded handler code can raise. -/
inductive PyExc
  | valueError            -- int() on a non-integer string
  | typeError             -- SQLAlchemy declarative constructor, unknown keyword
  | attributeError        -- attribute access on an object lacking it (str.serialize)
  | keyError              -- match_info without the id segment
  | httpBadRequest (reason : String)
  | httpUnauthorized (reason : String)
deriving DecidableEq

/-- Bodies of HTTP responses produced by the handlers (lightapi/handlers.py):
a single JSON object, a JSON array of objects, or an empty body (204 / HEAD). -/
inductive Body
  | obj (kvs : Row)
  | arr (objs : List Row)
  | empty
deriving DecidableEq

/-- An HTTP response: status code plus body. -/
structure Response where
  status : Nat
  body : Body
deriving DecidableEq

/-- The persistent store backing the handlers (lightapi/database.py): an
autoincrement counter and rows keyed by the pk column value. -/
structure DBStore where
  nextPk : Int
  rows : List (Value × Row)
deriving DecidableEq

/-- The parts of an aiohttp request the CRUD handlers consume: the id path
segment from match_info when the route has one, and the decoded JSON body
(none models a body that does not decode to a JSON mapping). -/
structure Request where
  matchId : Option String
  body : Option Row
deriving DecidableEq

/-- Digits of a decimal literal folded to a natural number. -/
def digitsToNat (cs : List Char) : Nat :=
  cs.foldl (fun a c => a * 10 + (c.toNat - 48)) 0

/-- Core of the Python int() builtin on the characters of a stripped string:
an optional sign followed by a nonempty run of decimal digits. -/
def pyIntCore : List Char → Option Int
  | [] => none
  | c :: rest =>
    if c = '-' then
      if rest ≠ [] ∧ rest.all Char.isDigit then some (-(digitsToNat rest : Int)) else none
    else if c = '+' then
      if rest ≠ [] ∧ rest.all Char.isDigit then some ((digitsToNat rest : Int)) else none
    else
      if (c :: rest).all Char.isDigit then some ((digitsToNat (c :: rest) : Int)) else none

/-- Surrounding whitespace characters dropped from both ends, as int() does
before parsing. -/
def pyStrip (cs : List Char) : List Char :=
  ((cs.dropWhile Char.isWhitespace).reverse.dropWhile Char.isWhitespace).reverse

/-- The Python int() builtin applied to a string: surrounding whitespace is
ignored, a non-integer string raises ValueError. -/
def pyInt (s : String) : Except PyExc Int :=
  match pyIntCore (pyStrip s.data) with
  | some n => Except.ok n
  | none => Except.error PyExc.valueError

namespace Handlers

/-- One value per declared non-key column, as the committed database row holds:
fields absent from the source mapping become NULL (generic Base declares no
column defaults). -/
def canonRow (fields : List String) (row : Row) : Row :=
  fields.map (fun f => (f, ((row.lookup f).getD Value.vnull)))

/-- Base.serialize (lightapi/database.py): one entry per column of the table,
the pk column first (declared on Base), then the declared fields. -/
def serialize (fields : List String) (pkVal : Value) (row : Row) : Row :=
  ("pk", pkVal) :: canonRow fields row

/-- AbstractHandler.get_request_json: returns the decoded JSON mapping, or
raises HTTPBadRequest when the body does not decode. -/
def getRequestJson (req : Request) : Except PyExc Row :=
  match req.body with
  | some d => Except.ok d
  | none => Except.error (PyExc.httpBadRequest "Invalid JSON!")

/-- AbstractHandler.get_item_by_id: query(model).filter(model.pk == item_id).first(),
the first stored row whose key column equals the requested integer. -/
def getItemById (db : DBStore) (itemId : Int) : Option (Value × Row) :=
  db.rows.find? (fun r => r.1 == Value.vint itemId)

/-- The SQLAlchemy declarative constructor model(**data): raises TypeError when
a keyword is not a mapped attribute; otherwise the instance carries the given
columns, with pk taken from the data when supplied. -/
def modelCtor (fields : List String) (data : Row) : Except PyExc (Option Value × Row) :=
  if data.all (fun kv => kv.1 == "pk" || fields.contains kv.1) then
    Except.ok (data.lookup "pk", data)
  else Except.error PyExc.typeError

/-- AbstractHandler.add_and_commit_item on a new instance: the row is committed
with the pk from the instance when set, else the autoincrement counter assigns
the key.  Returns the refreshed key, the committed row, and the new store. -/
def addAndCommitNew (fields : List String) (db : DBStore) (inst : Option Value × Row) :
    Value × Row × DBStore :=
  match inst.1 with
  | some v => (v, canonRow fields inst.2,
      { nextPk := db.nextPk, rows := db.rows ++ [(v, canonRow fields inst.2)] })
  | none => (Value.vint db.nextPk, canonRow fields inst.2,
      { nextPk := db.nextPk + 1,
        rows := db.rows ++ [(Value.vint db.nextPk, canonRow fields inst.2)] })

/-- The happy path of CreateHandler.handle: decode the body, construct the
model instance, commit it, and answer 201 with the serialized instance. -/
def createTry (fields : List String) (db : DBStore) (req : Request) :
    Except PyExc (DBStore × Response) := do
  let data ← getRequestJson req
  let inst ← modelCtor fields data
  let (k, row, db2) := addAndCommitNew fields db inst
  Except.ok (db2, ⟨201, Body.obj (serialize fields k row)⟩)

/-- CreateHandler.handle: the except branch runs
self.json_response("Error creating item!", status=400), and json_response
calls item.serialize(); a str has no serialize attribute, so the branch itself
raises AttributeError, which escapes handle. -/
def createHandle (fields : List String) (db : DBStore) (req : Request) :
    Except PyExc (DBStore × Response) :=
  match createTry fields db req with
  | Except.ok r => Except.ok r
  | Except.error _ => Except.error PyExc.attributeError

/-- Error body produced by AbstractHandler.json_error_response. -/
def errorBody (msg : String) : Body :=
  Body.obj [("error", Value.vstr msg)]

/-- ReadHandler.handle.  Without an id segment it builds a Python list of
serialized items and passes it to self.json_response; a list has no serialize
attribute, the AttributeError is caught inside the try and answered with the
500 error body.  With an id segment it converts the segment with int()
(ValueError escapes), fetches by key, and answers 200 or 404. -/
def readHandle (fields : List String) (db : DBStore) (req : Request) :
    Except PyExc (DBStore × Response) :=
  match req.matchId with
  | none => Except.ok (db, ⟨500, errorBody "Error retrieving an item!"⟩)
  | some s => do
    let itemId ← pyInt s
    match getItemById db itemId with
    | some it => Except.ok (db, ⟨200, Body.obj (serialize fields it.1 it.2)⟩)
    | none => Except.ok (db, ⟨404, errorBody "Item not found"⟩)

/-- Overwrite the value of one declared column of a row. -/
def setField (row : Row) (f : String) (v : Value) : Row :=
  row.map (fun kv => if kv.1 == f then (kv.1, v) else kv)

/-- The setattr loop of UpdateHandler/PatchHandler over a fetched item:
setting pk overwrites the key column, setting a declared field overwrites that
column, and setting a name that is not a mapped column only creates a plain
Python attribute, which no column, commit or serialize ever sees. -/
def setattrFold (fields : List String) (it : Value × Row) (data : Row) : Value × Row :=
  data.foldl
    (fun acc kv =>
      if kv.1 == "pk" then (kv.2, acc.2)
      else if fields.contains kv.1 then (acc.1, setField acc.2 kv.1 kv.2)
      else acc)
    it

/-- AbstractHandler.add_and_commit_item on an already persistent item: commit
rewrites the row fetched under oldKey with the mutated columns. -/
def updateRowsAt (db : DBStore) (oldKey : Value) (it : Value × Row) : DBStore :=
  { db with rows := db.rows.map (fun r => if r.1 == oldKey then it else r) }

/-- UpdateHandler.handle: int() on the id segment, fetch, 404 when absent;
otherwise decode the body (the except branch around it raises AttributeError
through json_response on a str, as in create), apply the setattr loop, commit,
and answer 200 with the serialized item. -/
def updateHandle (fields : List String) (db : DBStore) (req : Request) :
    Except PyExc (DBStore × Response) := do
  let s ← match req.matchId with
    | some s => Except.ok s
    | none => Except.error PyExc.keyError
  let itemId ← pyInt s
  match getItemById db itemId with
  | none => Except.ok (db, ⟨404, errorBody "Item not found"⟩)
  | some it =>
    match getRequestJson req with
    | Except.error _ => Except.error PyExc.attributeError
    | Except.ok data =>
      let it2 := setattrFold fields it data
      Except.ok (updateRowsAt db (Value.vint itemId) it2,
        ⟨200, Body.obj (serialize fields it2.1 it2.2)⟩)

/-- PatchHandler.handle: its body is line for line the code of
UpdateHandler.handle (only the logged error string differs). -/
def patchHandle (fields : List String) (db : DBStore) (req : Request) :
    Except PyExc (DBStore × Response) := do
  let s ← match req.matchId with
    | some s => Except.ok s
    | none => Except.error PyExc.keyError
  let itemId ← pyInt s
  match getItemById db itemId with
  | none => Except.ok (db, ⟨404, errorBody "Item not found"⟩)
  | some it =>
    match getRequestJson req with
    | Except.error _ => Except.error PyExc.attributeError
    | Except.ok data =>
      let it2 := setattrFold fields it data
      Except.ok (updateRowsAt db (Value.vint itemId) it2,
        ⟨200, Body.obj (serialize fields it2.1 it2.2)⟩)

/-- The effect of the setattr loop on the stored columns alone: only entries
of the body whose key is a declared field overwrite a column, every other
entry leaves the row unchanged.  Used to state that unknown extra fields are
ignored. -/
def applyFields (fields : List String) (row : Row) (data : Row) : Row :=
  data.foldl
    (fun r kv => if fields.contains kv.1 then setField r kv.1 kv.2 else r)
    row

/-- Remove the first stored row whose key equals k, as db.delete removes the
single row fetched by get_item_by_id. -/
def eraseRowAt : List (Value × Row) → Value → List (Value × Row)
  | [], _ => []
  | r :: rest, k => if r.1 == k then rest else r :: eraseRowAt rest k

/-- DeleteHandler.handle: int() on the id segment, fetch, 404 when absent;
otherwise delete the fetched row, commit, and answer an empty 204. -/
def deleteHandle (_fields : List String) (db : DBStore) (req : Request) :
    Except PyExc (DBStore × Response) := do
  let s ← match req.matchId with
    | some s => Except.ok s
    | none => Except.error PyExc.keyError
  let itemId ← pyInt s
  match getItemById db itemId with
  | none => Except.ok (db, ⟨404, errorBody "Item not found"⟩)
  | some _ =>
    Except.ok ({ db with rows := eraseRowAt db.rows (Value.vint itemId) },
      ⟨204, Body.empty⟩)

/-- Counters observed around one request through AbstractHandler, plus every
response object the call returns to the transport. -/
structure PyState where
  sessionsAcquired : Nat
  sessionsReleased : Nat
  written : List Response
deriving DecidableEq

/-- Classification of what escapes the awaited handler body: exn covers every
subclass of Exception, which the except clause catches; cancel is
CancelledError, which since Python 3.8 derives from BaseException only and is
not caught by except Exception. -/
inductive ExcClass
  | exn (e : PyExc)
  | cancel
deriving DecidableEq

/-- The await of self.handle(db, request) inside the call wrapper: it either
finishes with the handler result, raises the handler exception, or is
cancelled while suspended. -/
def awaitHandle
    (handle : List String → DBStore → Request → Except PyExc (DBStore × Response))
    (fields : List String) (db : DBStore) (req : Request) (cancelled : Bool) :
    Except ExcClass (DBStore × Response) :=
  if cancelled then Except.error ExcClass.cancel
  else
    match handle fields db req with
    | Except.ok r => Except.ok r
    | Except.error e => Except.error (ExcClass.exn e)

/-- The response written by the except clause of the call wrapper. -/
def internalErrorResponse : Response :=
  ⟨500, errorBody "Internal server error!"⟩

/-- The initial per-request accounting state: no session, nothing written. -/
def initState : PyState := ⟨0, 0, []⟩

/-- The dunder call wrapper in AbstractHandler: db = SessionLocal() acquires a
session handle, the try block returns the awaited handler result, except
Exception answers the 500 error body, and finally db.close() releases the
handle on every path; a cancellation is not caught and propagates with
nothing written. -/
def dunderCall (res : Except ExcClass (DBStore × Response)) (st : PyState) :
    PyState × Option ExcClass :=
  let st1 := { st with sessionsAcquired := st.sessionsAcquired + 1 }
  match res with
  | Except.ok (_, r) =>
    (⟨st1.sessionsAcquired, st1.sessionsReleased + 1, st1.written ++ [r]⟩, none)
  | Except.error (ExcClass.exn _) =>
    (⟨st1.sessionsAcquired, st1.sessionsReleased + 1,
      st1.written ++ [internalErrorResponse]⟩, none)
  | Except.error ExcClass.cancel =>
    (⟨st1.sessionsAcquired, st1.sessionsReleased + 1, st1.written⟩,
      some ExcClass.cancel)

/-- The route list built by create_handler (lightapi/handlers.py) for a model:
eight routes, including both the collection and the single-item GET route. -/
def createHandlerRoutePairs (tablename : String) : List (String × String) :=
  [("POST", "/" ++ tablename ++ "/"),
   ("GET", "/" ++ tablename ++ "/"),
   ("GET", "/" ++ tablename ++ "/{id}"),
   ("PUT", "/" ++ tablename ++ "/{id}"),
   ("DELETE", "/" ++ tablename ++ "/{id}"),
   ("PATCH", "/" ++ tablename ++ "/{id}"),
   ("OPTIONS", "/" ++ tablename ++ "/"),
   ("HEAD", "/" ++ tablename ++ "/")]

end Handlers

namespace Rest

/-- One aiohttp RouteDef produced by RestEndpoint: the HTTP method, the path
pattern, and the method name the bound handler closure captured. -/
structure RouteDef where
  method : String
  path : String
  verb : String
deriving DecidableEq

/-- The default http_method_names of RestEndpoint: the value of every HttpEnum
member, in declaration order. -/
def defaultHttpMethodNames : List String :=
  ["GET", "POST", "PUT", "PATCH", "DELETE", "HEAD", "OPTIONS"]

/-- RestEndpoint private create routes: available verbs are the method names
minus the excluded ones, and one conditional per verb appends its route, in
source order POST, GET, PUT, DELETE, PATCH, OPTIONS, HEAD.  The single-item
GET route line (path slash tablename slash id) is commented out in the
source, so GET contributes only the collection route. -/
def createRoutes (tablename : String) (httpMethodNames httpExclude : List String) :
    List RouteDef :=
  let available := httpMethodNames.filter (fun v => !(httpExclude.contains v))
  (if available.contains "POST" then [⟨"POST", "/" ++ tablename ++ "/", "post"⟩] else []) ++
  (if available.contains "GET" then [⟨"GET", "/" ++ tablename ++ "/", "get"⟩] else []) ++
  (if available.contains "PUT" then [⟨"PUT", "/" ++ tablename ++ "/{id}", "put"⟩] else []) ++
  (if available.contains "DELETE" then [⟨"DELETE", "/" ++ tablename ++ "/{id}", "delete"⟩] else []) ++
  (if available.contains "PATCH" then [⟨"PATCH", "/" ++ tablename ++ "/{id}", "patch"⟩] else []) ++
  (if available.contains "OPTIONS" then [⟨"OPTIONS", "/" ++ tablename ++ "/", "options"⟩] else []) ++
  (if available.contains "HEAD" then [⟨"HEAD", "/" ++ tablename ++ "/", "head"⟩] else [])

/-- Modelled from the spec: the route table the claim says is compiled for an
effective verb set, written from the claim text for comparison with
createRoutes.  GET implies two routes, collection read and single-item read;
POST, OPTIONS and HEAD imply one collection route each; PUT, PATCH and DELETE
imply one item route each. -/
def claimImpliedRoutePairs (tablename : String) (verbs : List String) :
    List (String × String) :=
  (if verbs.contains "GET" then
    [("GET", "/" ++ tablename ++ "/"), ("GET", "/" ++ tablename ++ "/{id}")] else []) ++
  (if verbs.contains "POST" then [("POST", "/" ++ tablename ++ "/")] else []) ++
  (if verbs.contains "OPTIONS" then [("OPTIONS", "/" ++ tablename ++ "/")] else []) ++
  (if verbs.contains "HEAD" then [("HEAD", "/" ++ tablename ++ "/")] else []) ++
  (if verbs.contains "PUT" then [("PUT", "/" ++ tablename ++ "/{id}")] else []) ++
  (if verbs.contains "PATCH" then [("PATCH", "/" ++ tablename ++ "/{id}")] else []) ++
  (if verbs.contains "DELETE" then [("DELETE", "/" ++ tablename ++ "/{id}")] else [])

/-- The state of a RestEndpoint subclass at registration: its table name, the
set of handler method names the subclass actually defines, and whether an
authentication class attribute is set. -/
structure Endpoint where
  tablename : String
  implemented : List String
  authenticationClass : Bool
deriving DecidableEq

/-- The value returned by RestEndpoint private create handler: it only defines
and returns the async closure, capturing the endpoint and the method name.
No lookup of the method happens at creation time, so creation never raises. -/
structure CompiledHandler where
  endpoint : Endpoint
  methodName : String
deriving DecidableEq

/-- RestEndpoint private create handler: returns the closure immediately. -/
def createHandler (ep : Endpoint) (methodName : String) : CompiledHandler :=
  ⟨ep, methodName⟩

/-- What one run of the compiled closure does once a request arrives. -/
inductive HandlerStep
  | response (r : Response)
  | raisedMissing (methodName : String)
deriving DecidableEq

/-- The body of the async closure, for an endpoint without an authentication
class (the RestEndpoint default leaves it unset): getattr(self, method_name,
None) resolves the method only now, and when the subclass does not define it
the closure raises MissingHandlerImplementationError; otherwise the method
result is returned (a dict becomes a JSON response). -/
def runCompiledHandler (h : CompiledHandler) (methodResult : Response) : HandlerStep :=
  if h.endpoint.implemented.contains h.methodName then
    HandlerStep.response methodResult
  else
    HandlerStep.raisedMissing h.methodName

end Rest

namespace Auth

/-- A JWT as the embedded auth layer sees it: the payload fields written by
encode_token (user_id and exp as a timestamp), plus the signing key that
produced the signature, which is what jwt.decode checks the supplied key
against before reading any claim. -/
structure JwtToken where
  userId : String
  exp : Nat
  key : String
deriving DecidableEq

/-- jwt.encode over the payload built by encode_token. -/
def jwtEncode (key : String) (userId : String) (exp : Nat) : JwtToken :=
  ⟨userId, exp, key⟩

/-- Error classes raised by jwt.decode. -/
inductive JwtError
  | expiredSignature
  | invalidToken
deriving DecidableEq

/-- jwt.decode with the given key: the signature check fails with
InvalidTokenError when the token was signed with a different key, then the
exp claim raises ExpiredSignatureError when exp is not in the future, and
otherwise the payload is returned. -/
def jwtDecode (key : String) (tok : JwtToken) (now : Nat) :
    Except JwtError (String × Nat) :=
  if tok.key ≠ key then Except.error JwtError.invalidToken
  else if tok.exp ≤ now then Except.error JwtError.expiredSignature
  else Except.ok (tok.userId, tok.exp)

/-- The rows of the jwttoken table (the JWTToken model is referenced from
lightapi/models but the class itself holds just user_id and token columns;
the store keeps the encoded token values, compared by equality in
decode_token). -/
abbrev TokenStore := List JwtToken

/-- DefaultJWTAuthentication.encode_token: sign the payload with the current
secret key and persist the token record, returning the token. -/
def encodeToken (key : String) (deltaSeconds : Nat) (now : Nat) (userId : String)
    (store : TokenStore) : JwtToken × TokenStore :=
  let tok := jwtEncode key userId (now + deltaSeconds)
  (tok, store ++ [tok])

/-- DefaultJWTAuthentication.decode_token: jwt.decode first (HTTPUnauthorized
with the reason Token has expired or Invalid token on failure), then a lookup
of the token record in the store, absent record raising HTTPUnauthorized with
reason Invalid token; the decoded payload is returned otherwise. -/
def decodeToken (key : String) (store : TokenStore) (now : Nat) (tok : JwtToken) :
    Except String (String × Nat) :=
  match jwtDecode key tok now with
  | Except.ok decoded =>
    if store.contains tok then Except.ok decoded
    else Except.error "Invalid token."
  | Except.error JwtError.expiredSignature => Except.error "Token has expired."
  | Except.error JwtError.invalidToken => Except.error "Invalid token."

/-- A row of the user table as authenticate consumes it: the pk column that
payload user_id is matched against, and the id and username attributes read
off the found row. -/
structure User where
  pk : String
  id : Int
  username : String
deriving DecidableEq

/-- DefaultJWTAuthentication.authenticate: jwt.decode with the current secret
key (expired or invalid signature raising HTTPUnauthorized), then a user
lookup by pk equal to the payload user_id; the token store is never
consulted.  A found user yields its info mapping, no user yields None. -/
def authenticate (key : String) (users : List User) (now : Nat) (tok : JwtToken) :
    Except String (Option (Int × String)) :=
  match jwtDecode key tok now with
  | Except.error _ => Except.error "Invalid or expired token."
  | Except.ok (userId, _) =>
    match users.find? (fun u => u.pk == userId) with
    | some u => Except.ok (some (u.id, u.username))
    | none => Except.ok none

/-- Acceptance of an authenticate result by the route handler in rest.py: the
request proceeds only when authenticate neither raised nor returned None. -/
def authAccepts (r : Except String (Option (Int × String))) : Bool :=
  match r with
  | Except.ok (some _) => true
  | _ => false

/-- The secret key property of DefaultJWTAuthentication: the per-instance
field starts as None and the property stores os.urandom(32).hex() on first
access, returning the stored value ever after.  fresh stands for the random
value the generator would produce on this access. -/
def secretKeyAccess (state : Option String) (fresh : String) : String × Option String :=
  match state with
  | none => (fresh, some fresh)
  | some k => (k, some k)

/-- Result classification used in acceptance statements about decode_token. -/
def decodeAccepts (r : Except String (String × Nat)) : Bool :=
  match r with
  | Except.ok _ => true
  | Except.error _ => false

end Auth

/-- Looking a key up at the head of an association list. -/
theorem lookup_cons_self (k : String) (v : Value) (rest : Row) :
    ((k, v) :: rest).lookup k = some v := by
  rw [List.lookup_cons]
  simp

/-- Looking a different key up skips the head of an association list. -/
theorem lookup_cons_ne (k : String) (v : Value) (rest : Row) (f : String) (h : f ≠ k) :
    ((k, v) :: rest).lookup f = rest.lookup f := by
  have h1 : (f == k) = false := by simpa using h
  rw [List.lookup_cons, h1]

/-- A key absent from an association list has no lookup result. -/
theorem lookup_none_of_not_mem (l : Row) (f : String) (h : f ∉ l.map Prod.fst) :
    l.lookup f = none := by
  induction l with
  | nil => rfl
  | cons kv rest ih =>
    simp only [List.map_cons, List.mem_cons] at h
    push_neg at h
    cases kv with
    | mk k v =>
      rw [lookup_cons_ne k v rest f h.1]
      exact ih h.2

/-- Rebuilding a mapping column by column from itself is the identity when its
keys are distinct: the committed row of an instance built from such a body
holds exactly the body. -/
theorem canonRow_self (data : Row) (hnd : (data.map Prod.fst).Nodup) :
    Handlers.canonRow (data.map Prod.fst) data = data := by
  induction data with
  | nil => rfl
  | cons kv rest ih =>
    cases kv with
    | mk k v =>
      simp only [List.map_cons, List.nodup_cons] at hnd
      have htail : (rest.map Prod.fst).map
          (fun f => (f, ((((k, v) :: rest).lookup f).getD Value.vnull))) =
          (rest.map Prod.fst).map
          (fun f => (f, ((rest.lookup f).getD Value.vnull))) := by
        apply List.map_congr_left
        intro a ha
        have hak : a ≠ k := by
          intro hh; exact hnd.1 (hh ▸ ha)
        rw [lookup_cons_ne k v rest a hak]
      calc Handlers.canonRow (k :: rest.map Prod.fst) ((k, v) :: rest)
          = (k, (((((k, v) :: rest).lookup k)).getD Value.vnull)) ::
            (rest.map Prod.fst).map
              (fun f => (f, ((((k, v) :: rest).lookup f).getD Value.vnull))) := rfl
        _ = (k, v) :: Handlers.canonRow (rest.map Prod.fst) rest := by
            rw [htail, lookup_cons_self]; rfl
        _ = (k, v) :: rest := by rw [ih hnd.2]

/-- A freshly appended row with an unused key is the one found when fetching
that key. -/
theorem find_append_fresh (rows : List (Value × Row)) (k : Value) (it : Value × Row)
    (hfresh : ∀ r ∈ rows, r.1 ≠ k) (hit : it.1 = k) :
    (rows ++ [it]).find? (fun r => r.1 == k) = some it := by
  induction rows with
  | nil =>
    have : (it.1 == k) = true := by simpa using hit
    simp [List.find?, this]
  | cons r rest ih =>
    have hr : (r.1 == k) = false := by
      simpa using hfresh r (List.mem_cons_self r rest)
    have ih2 := ih (fun x hx => hfresh x (List.mem_cons_of_mem r hx))
    simpa [List.find?, hr] using ih2

/-- After removing the first row with the given key from a store whose keys
are distinct, no row with that key is found any more. -/
theorem find_erase_nodup (rows : List (Value × Row)) (k : Value)
    (hnd : (rows.map Prod.fst).Nodup) :
    (Handlers.eraseRowAt rows k).find? (fun r => r.1 == k) = none := by
  induction rows with
  | nil => rfl
  | cons r rest ih =>
    simp only [List.map_cons, List.nodup_cons] at hnd
    by_cases hr : r.1 = k
    · have hstep : Handlers.eraseRowAt (r :: rest) k = rest := by
        simp [Handlers.eraseRowAt, hr]
      rw [hstep, List.find?_eq_none]
      intro x hx
      have hxk : ¬ x.1 = k := by
        intro hh
        apply hnd.1
        rw [hr, ← hh]
        exact List.mem_map_of_mem Prod.fst hx
      simpa using hxk
    · have hstep : Handlers.eraseRowAt (r :: rest) k = r :: Handlers.eraseRowAt rest k := by
        simp [Handlers.eraseRowAt, hr]
      rw [hstep]
      have hb : (r.1 == k) = false := by simpa using hr
      simp [List.find?, hb, ih hnd.2]

/-- The setattr loop of Update/Patch on a body without a pk key leaves the key
column unchanged and acts on the stored columns as applyFields. -/
theorem setattrFold_no_pk (fields : List String) (it : Value × Row) (data : Row)
    (hpk : "pk" ∉ data.map Prod.fst) :
    Handlers.setattrFold fields it data = (it.1, Handlers.applyFields fields it.2 data) := by
  induction data generalizing it with
  | nil => rfl
  | cons kv rest ih =>
    simp only [List.map_cons, List.mem_cons] at hpk
    push_neg at hpk
    have hne : kv.1 ≠ "pk" := Ne.symm hpk.1
    by_cases hf : kv.1 ∈ fields
    · have h1 : Handlers.setattrFold fields it (kv :: rest) =
          Handlers.setattrFold fields (it.1, Handlers.setField it.2 kv.1 kv.2) rest := by
        simp [Handlers.setattrFold, hne, hf]
      have h2 : Handlers.applyFields fields it.2 (kv :: rest) =
          Handlers.applyFields fields (Handlers.setField it.2 kv.1 kv.2) rest := by
        simp [Handlers.applyFields, hf]
      rw [h1, h2]
      exact ih (it.1, Handlers.setField it.2 kv.1 kv.2) hpk.2
    · have h1 : Handlers.setattrFold fields it (kv :: rest) =
          Handlers.setattrFold fields it rest := by
        simp [Handlers.setattrFold, hne, hf]
      have h2 : Handlers.applyFields fields it.2 (kv :: rest) =
          Handlers.applyFields fields it.2 rest := by
        simp [Handlers.applyFields, hf]
      rw [h1, h2]
      exact ih it hpk.2

/-- Entries of the body whose key is not a declared field have no effect:
filtering them away first yields the same updated row. -/
theorem applyFields_filter (fields : List String) (row : Row) (data : Row) :
    Handlers.applyFields fields row (data.filter (fun kv => fields.contains kv.1)) =
      Handlers.applyFields fields row data := by
  induction data generalizing row with
  | nil => rfl
  | cons kv rest ih =>
    by_cases hf : kv.1 ∈ fields
    · have h1 : (kv :: rest).filter (fun kv => fields.contains kv.1) =
          kv :: rest.filter (fun kv => fields.contains kv.1) := by
        simp [List.filter_cons, hf]
      rw [h1]
      have h2 : Handlers.applyFields fields row
          (kv :: rest.filter (fun kv => fields.contains kv.1)) =
          Handlers.applyFields fields (Handlers.setField row kv.1 kv.2)
            (rest.filter (fun kv => fields.contains kv.1)) := by
        simp [Handlers.applyFields, hf]
      have h3 : Handlers.applyFields fields row (kv :: rest) =
          Handlers.applyFields fields (Handlers.setField row kv.1 kv.2) rest := by
        simp [Handlers.applyFields, hf]
      rw [h2, h3]
      exact ih (Handlers.setField row kv.1 kv.2)
    · have h1 : (kv :: rest).filter (fun kv => fields.contains kv.1) =
          rest.filter (fun kv => fields.contains kv.1) := by
        simp [List.filter_cons, hf]
      have h3 : Handlers.applyFields fields row (kv :: rest) =
          Handlers.applyFields fields row rest := by
        simp [Handlers.applyFields, hf]
      rw [h1, h3]
      exact ih row

/-- C1: for an entity registered through a RestEndpoint with effective verb
set containing GET, the compiled route table holds only the collection GET
route: the single-item GET route the claim requires is absent (its line is
commented out in the source, although both the class docstring and the
parallel compiler create_handler in handlers.py include it). -/
theorem c1_rest_get_item_route_missing :
    Rest.createRoutes "person" ["GET"] [] = [⟨"GET", "/person/", "get"⟩] ∧
    Rest.claimImpliedRoutePairs "person" ["GET"] =
      [("GET", "/person/"), ("GET", "/person/{id}")] ∧
    (Rest.createRoutes "person" ["GET"] []).map (fun r => (r.method, r.path)) ≠
      Rest.claimImpliedRoutePairs "person" ["GET"] ∧
    ("GET", "/person/{id}") ∈ Handlers.createHandlerRoutePairs "person" := by
  decide

/-- C2: with a subclass implementing only get (the setting of the repo test
test_missing_handler), creating the delete handler succeeds at
compile/registration time, returning the closure; the
MissingHandlerImplementationError is raised only when a request runs the
closure, so the failure happens at request time, not at registration. -/
theorem c2_missing_handler_raised_at_request_time :
    Rest.createHandler ⟨"test", ["get"], false⟩ "delete" =
      ⟨⟨"test", ["get"], false⟩, "delete"⟩ ∧
    Rest.runCompiledHandler (Rest.createHandler ⟨"test", ["get"], false⟩ "delete")
      ⟨200, Body.empty⟩ = Rest.HandlerStep.raisedMissing "delete" := by
  decide

/-- C3 counterexample: a token signed with the gate key and unexpired whose
record is absent from the token store (the state after revocation) is still
accepted by authenticate, the verification the request path runs, because
authenticate never consults the store; the claim says every verification of
a revoked token returns Unauthorized. -/
theorem c3_revoked_token_accepted_by_authenticate :
    Auth.authenticate "k0" [⟨"u1", 1, "alice"⟩] 50 (Auth.jwtEncode "k0" "u1" 100) =
      Except.ok (some (1, "alice")) ∧
    (Auth.jwtEncode "k0" "u1" 100) ∉ ([] : Auth.TokenStore) ∧
    Auth.authAccepts (Auth.authenticate "k0" [⟨"u1", 1, "alice"⟩] 50
      (Auth.jwtEncode "k0" "u1" 100)) = true := by
  exact ⟨rfl, List.not_mem_nil _, rfl⟩

/-- C4: a Create request whose body does not decode leads to a 500 response
with the generic internal error body, not a 400: the except branch of
CreateHandler.handle calls json_response on a plain string, whose missing
serialize attribute raises AttributeError, and the call wrapper answers 500. -/
theorem c4_malformed_create_body_yields_500 :
    Handlers.dunderCall
      (Handlers.awaitHandle Handlers.createHandle ["name"] ⟨1, []⟩ ⟨none, none⟩ false)
      Handlers.initState =
      (⟨1, 1, [Handlers.internalErrorResponse]⟩, none) ∧
    Handlers.internalErrorResponse.status = 500 ∧
    Handlers.internalErrorResponse.status ≠ 400 := by
  decide

/-- C8 counterexample: when the awaited handler body is cancelled, the call
wrapper still releases the session in finally, but no response at all is
written, so the response count for that request is zero, not one as the claim
requires. -/
theorem c8_cancelled_request_writes_no_response :
    (Handlers.dunderCall (Except.error Handlers.ExcClass.cancel)
      Handlers.initState).1.written = [] ∧
    (Handlers.dunderCall (Except.error Handlers.ExcClass.cancel)
      Handlers.initState).1.sessionsReleased = 1 := by
  decide

/-- C9: the signing key is per-instance, not process-wide: each
DefaultJWTAuthentication instance starts with no key and stores its own fresh
random value on first access, so the fresh instance the route handler builds
per request holds a different key from the instance that issued a token, and
both decode_token and authenticate reject that unexpired, stored token as
invalid. -/
theorem c9_secret_key_is_per_instance :
    Auth.secretKeyAccess none "11aa" = ("11aa", some "11aa") ∧
    Auth.secretKeyAccess none "22bb" = ("22bb", some "22bb") ∧
    Auth.decodeToken "22bb" [Auth.jwtEncode "11aa" "u1" 100] 50
      (Auth.jwtEncode "11aa" "u1" 100) = Except.error "Invalid token." ∧
    Auth.authenticate "22bb" [⟨"u1", 1, "alice"⟩] 50 (Auth.jwtEncode "11aa" "u1" 100) =
      Except.error "Invalid or expired token." := by
  exact ⟨rfl, rfl, rfl, rfl⟩

/-- C3 amended: decode_token accepts a token exactly when it is signed with
the gate key, now is before its expiry, and its record is in the token store,
so revocation does block decode_token; but authenticate, the verification the
request path runs, accepts exactly when the signature and expiry check out
and the user exists, with no reference to the token store, so revocation does
not affect it. -/
theorem c3_amended_only_decode_checks_store :
    (∀ (key : String) (store : Auth.TokenStore) (now : Nat) (tok : Auth.JwtToken),
      Auth.decodeAccepts (Auth.decodeToken key store now tok) = true ↔
        (tok.key = key ∧ now < tok.exp ∧ tok ∈ store)) ∧
    (∀ (key : String) (users : List Auth.User) (now : Nat) (tok : Auth.JwtToken),
      Auth.authAccepts (Auth.authenticate key users now tok) = true ↔
        (tok.key = key ∧ now < tok.exp ∧ ∃ u ∈ users, u.pk = tok.userId)) := by
  constructor
  · intro key store now tok
    by_cases hk : tok.key = key
    · by_cases he : tok.exp ≤ now
      · have hlt : ¬ now < tok.exp := by omega
        simp [Auth.decodeToken, Auth.jwtDecode, Auth.decodeAccepts, hk, he, hlt]
      · have hlt : now < tok.exp := by omega
        by_cases hm : tok ∈ store
        · simp [Auth.decodeToken, Auth.jwtDecode, Auth.decodeAccepts, hk, he, hlt, hm,
            List.contains]
        · simp [Auth.decodeToken, Auth.jwtDecode, Auth.decodeAccepts, hk, he, hlt, hm,
            List.contains]
    · simp [Auth.decodeToken, Auth.jwtDecode, Auth.decodeAccepts, hk]
  · intro key users now tok
    by_cases hk : tok.key = key
    · by_cases he : tok.exp ≤ now
      · have hlt : ¬ now < tok.exp := by omega
        simp [Auth.authenticate, Auth.jwtDecode, Auth.authAccepts, hk, he, hlt]
      · have hlt : now < tok.exp := by omega
        rcases hf : users.find? (fun u => u.pk == tok.userId) with _ | u
        · simp [Auth.authenticate, Auth.jwtDecode, Auth.authAccepts, hk, he, hlt, hf]
          intro u hu
          have := List.find?_eq_none.mp hf u hu
          simpa using this
        · simp [Auth.authenticate, Auth.jwtDecode, Auth.authAccepts, hk, he, hlt, hf]
          refine ⟨u, List.mem_of_find?_eq_some hf, ?_⟩
          have := List.find?_some hf
          simpa using this
    · simp [Auth.authenticate, Auth.jwtDecode, Auth.authAccepts, hk]

/-- C3 witness: the amended characterization evaluated at a stored, unexpired
token signed with the gate key. -/
theorem c3_amended_witness :
    Auth.decodeAccepts (Auth.decodeToken "k0" [Auth.jwtEncode "k0" "u1" 100] 50
      (Auth.jwtEncode "k0" "u1" 100)) = true :=
  (c3_amended_only_decode_checks_store.1 "k0" [Auth.jwtEncode "k0" "u1" 100] 50
    (Auth.jwtEncode "k0" "u1" 100)).mpr ⟨rfl, by decide, List.mem_singleton.mpr rfl⟩

/-- C8 amended: on every exit of the call wrapper exactly one session is
acquired and exactly one released, finally covering success, handler
exception, and cancellation alike; exactly one response is written on the
success and handler-exception paths, while on the cancellation path nothing
is written and the cancellation propagates. -/
theorem c8_amended_scope_and_response_discipline
    (res : Except Handlers.ExcClass (DBStore × Response)) :
    (Handlers.dunderCall res Handlers.initState).1.sessionsAcquired = 1 ∧
    (Handlers.dunderCall res Handlers.initState).1.sessionsReleased = 1 ∧
    (Handlers.dunderCall res Handlers.initState).1.written.length =
      (match res with
       | Except.error Handlers.ExcClass.cancel => 0
       | _ => 1) ∧
    ((Handlers.dunderCall res Handlers.initState).2 ≠ none ↔
      res = Except.error Handlers.ExcClass.cancel) := by
  cases res with
  | ok r => simp [Handlers.dunderCall, Handlers.initState]
  | error e =>
    cases e with
    | exn ex => simp [Handlers.dunderCall, Handlers.initState]
    | cancel => simp [Handlers.dunderCall, Handlers.initState]

/-- C10: when the id path segment of an item-level request is not a decimal
integer string the unguarded int() conversion raises ValueError, which
escapes the handler body of read-one, update, patch and delete alike, so the
call wrapper answers the 500 internal-server-error JSON body rather than a
404. -/
theorem c10_nonint_id_yields_500 (fields : List String) (db : DBStore) (s : String)
    (body : Option Row) (hbad : pyInt s = Except.error PyExc.valueError) :
    Handlers.dunderCall
      (Handlers.awaitHandle Handlers.readHandle fields db ⟨some s, body⟩ false)
      Handlers.initState = (⟨1, 1, [Handlers.internalErrorResponse]⟩, none) ∧
    Handlers.dunderCall
      (Handlers.awaitHandle Handlers.updateHandle fields db ⟨some s, body⟩ false)
      Handlers.initState = (⟨1, 1, [Handlers.internalErrorResponse]⟩, none) ∧
    Handlers.dunderCall
      (Handlers.awaitHandle Handlers.patchHandle fields db ⟨some s, body⟩ false)
      Handlers.initState = (⟨1, 1, [Handlers.internalErrorResponse]⟩, none) ∧
    Handlers.dunderCall
      (Handlers.awaitHandle Handlers.deleteHandle fields db ⟨some s, body⟩ false)
      Handlers.initState = (⟨1, 1, [Handlers.internalErrorResponse]⟩, none) := by
  refine ⟨?_, ?_, ?_, ?_⟩ <;>
    simp [Handlers.readHandle, Handlers.updateHandle, Handlers.patchHandle,
      Handlers.deleteHandle, Handlers.awaitHandle, Handlers.dunderCall,
      Handlers.initState, hbad, Bind.bind, Except.bind]

/-- C10 witness: a request with the id segment abc on a one-field entity. -/
theorem c10_nonint_id_witness :
    pyInt "abc" = Except.error PyExc.valueError ∧
    Handlers.dunderCall
      (Handlers.awaitHandle Handlers.readHandle ["name"] ⟨1, []⟩ ⟨some "abc", none⟩ false)
      Handlers.initState = (⟨1, 1, [Handlers.internalErrorResponse]⟩, none) :=
  ⟨rfl, (c10_nonint_id_yields_500 ["name"] ⟨1, []⟩ "abc" none rfl).1⟩

/-- C5: creating an entity from a body that assigns each declared field once
and then reading it back under the key the store assigned yields in both
steps the body plus the assigned primary key, with statuses 201 and 200.  The
body covers the declared fields (a valid entity payload), pk is not a
declared field name, the id segment of the read denotes the assigned key, and
the autoincrement counter is fresh for the stored rows. -/
theorem c5_create_then_read_roundtrip (fields : List String) (db : DBStore) (data : Row)
    (idStr : String)
    (hkeys : data.map Prod.fst = fields)
    (hnd : fields.Nodup)
    (hpk : "pk" ∉ fields)
    (hid : pyInt idStr = Except.ok db.nextPk)
    (hfresh : ∀ r ∈ db.rows, r.1 ≠ Value.vint db.nextPk) :
    ∃ db2 : DBStore,
      Handlers.createHandle fields db ⟨none, some data⟩ =
        Except.ok (db2, ⟨201, Body.obj (("pk", Value.vint db.nextPk) :: data)⟩) ∧
      Handlers.readHandle fields db2 ⟨some idStr, none⟩ =
        Except.ok (db2, ⟨200, Body.obj (("pk", Value.vint db.nextPk) :: data)⟩) := by
  have hnd2 : (data.map Prod.fst).Nodup := by rw [hkeys]; exact hnd
  have hcanon : Handlers.canonRow fields data = data := by
    have h := canonRow_self data hnd2
    rwa [hkeys] at h
  have hall : data.all (fun kv => kv.1 == "pk" || fields.contains kv.1) = true := by
    rw [List.all_eq_true]
    intro kv hkv
    have hin : kv.1 ∈ fields := by
      rw [← hkeys]; exact List.mem_map_of_mem Prod.fst hkv
    simp [hin]
  have hlk : data.lookup "pk" = none := by
    apply lookup_none_of_not_mem
    rw [hkeys]; exact hpk
  have hmc : Handlers.modelCtor fields data = Except.ok (none, data) := by
    unfold Handlers.modelCtor
    rw [if_pos hall, hlk]
  refine ⟨⟨db.nextPk + 1, db.rows ++ [(Value.vint db.nextPk, data)]⟩, ?_, ?_⟩
  · have h1 : Handlers.createTry fields db ⟨none, some data⟩ =
        Except.ok (⟨db.nextPk + 1, db.rows ++ [(Value.vint db.nextPk, data)]⟩,
          ⟨201, Body.obj (("pk", Value.vint db.nextPk) :: data)⟩) := by
      simp [Handlers.createTry, Handlers.getRequestJson, hmc,
        Handlers.addAndCommitNew, Handlers.serialize, hcanon, Bind.bind, Except.bind]
    simp [Handlers.createHandle, h1]
  · have hfind : (db.rows ++ [(Value.vint db.nextPk, data)]).find?
        (fun r => r.1 == Value.vint db.nextPk) = some (Value.vint db.nextPk, data) :=
      find_append_fresh db.rows (Value.vint db.nextPk) (Value.vint db.nextPk, data)
        hfresh rfl
    simp [Handlers.readHandle, hid, Handlers.getItemById, hfind, Handlers.serialize,
      hcanon, Bind.bind, Except.bind]

/-- C5 witness: posting a one-field person body into an empty store and
reading key 1 back. -/
theorem c5_roundtrip_witness :
    ([("name", Value.vstr "John")] : Row).map Prod.fst = ["name"] ∧
    (∃ db2 : DBStore,
      Handlers.createHandle ["name"] ⟨1, []⟩ ⟨none, some [("name", Value.vstr "John")]⟩ =
        Except.ok (db2,
          ⟨201, Body.obj (("pk", Value.vint 1) :: [("name", Value.vstr "John")])⟩) ∧
      Handlers.readHandle ["name"] db2 ⟨some "1", none⟩ =
        Except.ok (db2,
          ⟨200, Body.obj (("pk", Value.vint 1) :: [("name", Value.vstr "John")])⟩)) :=
  ⟨rfl, c5_create_then_read_roundtrip ["name"] ⟨1, []⟩ [("name", Value.vstr "John")] "1"
    rfl (by simp) (by simp) rfl (by intro r hr; simp at hr)⟩

/-- C6: deleting a key, reading it, and deleting it again: whatever the first
delete answered, the read after it answers 404 with the not-found error body,
and so does the second delete (not 204), over any store whose row keys are
distinct. -/
theorem c6_delete_read_delete (fields : List String) (db : DBStore)
    (idStr : String) (k : Int)
    (hid : pyInt idStr = Except.ok k)
    (hnd : (db.rows.map Prod.fst).Nodup) :
    ∃ (db2 : DBStore) (r1 : Response),
      Handlers.deleteHandle fields db ⟨some idStr, none⟩ = Except.ok (db2, r1) ∧
      Handlers.readHandle fields db2 ⟨some idStr, none⟩ =
        Except.ok (db2, ⟨404, Handlers.errorBody "Item not found"⟩) ∧
      Handlers.deleteHandle fields db2 ⟨some idStr, none⟩ =
        Except.ok (db2, ⟨404, Handlers.errorBody "Item not found"⟩) := by
  rcases hgi : Handlers.getItemById db k with _ | it
  · refine ⟨db, ⟨404, Handlers.errorBody "Item not found"⟩, ?_, ?_, ?_⟩ <;>
      simp [Handlers.deleteHandle, Handlers.readHandle, hid, hgi, Bind.bind, Except.bind]
  · refine ⟨⟨db.nextPk, Handlers.eraseRowAt db.rows (Value.vint k)⟩,
      ⟨204, Body.empty⟩, ?_, ?_, ?_⟩
    · simp [Handlers.deleteHandle, hid, hgi, Bind.bind, Except.bind]
    · have hnone : Handlers.getItemById
          ⟨db.nextPk, Handlers.eraseRowAt db.rows (Value.vint k)⟩ k = none :=
        find_erase_nodup db.rows (Value.vint k) hnd
      simp [Handlers.readHandle, hid, hnone, Bind.bind, Except.bind]
    · have hnone : Handlers.getItemById
          ⟨db.nextPk, Handlers.eraseRowAt db.rows (Value.vint k)⟩ k = none :=
        find_erase_nodup db.rows (Value.vint k) hnd
      simp [Handlers.deleteHandle, hid, hnone, Bind.bind, Except.bind]

/-- C6 witness: a store holding key 1, deleted twice around a read. -/
theorem c6_delete_read_delete_witness :
    pyInt "1" = Except.ok 1 ∧
    (∃ (db2 : DBStore) (r1 : Response),
      Handlers.deleteHandle ["name"] ⟨2, [(Value.vint 1, [("name", Value.vstr "a")])]⟩
          ⟨some "1", none⟩ = Except.ok (db2, r1) ∧
      Handlers.readHandle ["name"] db2 ⟨some "1", none⟩ =
        Except.ok (db2, ⟨404, Handlers.errorBody "Item not found"⟩) ∧
      Handlers.deleteHandle ["name"] db2 ⟨some "1", none⟩ =
        Except.ok (db2, ⟨404, Handlers.errorBody "Item not found"⟩)) :=
  ⟨rfl, c6_delete_read_delete ["name"] ⟨2, [(Value.vint 1, [("name", Value.vstr "a")])]⟩
    "1" 1 rfl (by simp)⟩

/-- C7: an Update or Patch on an existing item whose body holds keys not
declared by the entity answers 200 (no ValidationError is raised): the stored
item receives exactly the applyFields result, whose undeclared entries are
discarded, as the third conjunct states by filtering the body down to
declared keys without changing the outcome. -/
theorem c7_unknown_fields_ignored (fields : List String) (db : DBStore)
    (idStr : String) (k : Int) (it : Value × Row) (data : Row)
    (hid : pyInt idStr = Except.ok k)
    (hit : Handlers.getItemById db k = some it)
    (hpk : "pk" ∉ data.map Prod.fst) :
    (Handlers.updateHandle fields db ⟨some idStr, some data⟩ =
      Except.ok (Handlers.updateRowsAt db (Value.vint k)
          (it.1, Handlers.applyFields fields it.2 data),
        ⟨200, Body.obj (Handlers.serialize fields it.1
          (Handlers.applyFields fields it.2 data))⟩)) ∧
    (Handlers.patchHandle fields db ⟨some idStr, some data⟩ =
      Except.ok (Handlers.updateRowsAt db (Value.vint k)
          (it.1, Handlers.applyFields fields it.2 data),
        ⟨200, Body.obj (Handlers.serialize fields it.1
          (Handlers.applyFields fields it.2 data))⟩)) ∧
    (Handlers.applyFields fields it.2 (data.filter (fun kv => fields.contains kv.1)) =
      Handlers.applyFields fields it.2 data) := by
  have hsf := setattrFold_no_pk fields it data hpk
  refine ⟨?_, ?_, applyFields_filter fields it.2 data⟩ <;>
    simp [Handlers.updateHandle, Handlers.patchHandle, hid, hit,
      Handlers.getRequestJson, hsf, Bind.bind, Except.bind]

/-- C7 witness: patching a two-field item with a body holding one declared
field and one junk field, stated with the handler outputs fully evaluated. -/
theorem c7_unknown_fields_witness :
    ("pk" ∉ ([("email", Value.vstr "c"), ("junk", Value.vbool true)] : Row).map Prod.fst) ∧
    Handlers.updateHandle ["name", "email"]
        ⟨2, [(Value.vint 1, [("name", Value.vstr "a"), ("email", Value.vstr "b")])]⟩
        ⟨some "1", some [("email", Value.vstr "c"), ("junk", Value.vbool true)]⟩ =
      Except.ok (⟨2, [(Value.vint 1, [("name", Value.vstr "a"), ("email", Value.vstr "c")])]⟩,
        ⟨200, Body.obj [("pk", Value.vint 1), ("name", Value.vstr "a"),
          ("email", Value.vstr "c")]⟩) :=
  ⟨by simp, (c7_unknown_fields_ignored ["name", "email"]
    ⟨2, [(Value.vint 1, [("name", Value.vstr "a"), ("email", Value.vstr "b")])]⟩
    "1" 1 (Value.vint 1, [("name", Value.vstr "a"), ("email", Value.vstr "b")])
    [("email", Value.vstr "c"), ("junk", Value.vbool true)]
    rfl rfl (by simp)).1⟩

end LightApi
